import Mathlib

/-!
# Verification of the `Runner` discovery-orchestration engine

Shallow embedding of `src/runner/runner.rs` from the x8 hidden-parameter
discovery tool.  Network collaborators (`Request::send`, `empty_reqs`,
`check_parameters`, `verify`, `replay`) are modelled as oracle inputs: each
probe outcome the code branches on is a parameter of the embedded function.
Machine integers: `default_max: isize` becomes `Int`, `max: usize` becomes
`Nat`; the sizes involved (≤ 256) are nowhere near overflow.
-/

/-- Modelled from the spec: the `InjectionPlace` enum of the `structs`
module is not under `src/`; the spec only distinguishes `Headers`
from everything else ("query, body, headers"). -/
inductive InjectionPlace where
  | Headers
  | Query
  | Body
  | Path
deriving DecidableEq, Repr

/-- Modelled from the spec: the `Stable` flags record of the `structs`
module ("body: bool, reflections: bool") is not under `src/`.
Rust's derived `Default` makes both flags `false`. -/
structure Stable where
  body : Bool
  reflections : Bool
deriving DecidableEq, Repr

/-- The `Response` fields are exactly those named by the struct literal in
`Runner::new` (runner.rs lines 80-88); their types are modelled from the
spec (elapsed time, status code, headers, body text, reflected parameters,
optional additional-parameter signal, transient request link). -/
structure Response where
  time : Nat
  code : Nat
  headers : List (String × String)
  text : String
  reflected_parameters : List String
  additional_parameter : Option String
  request : Option Unit
deriving DecidableEq, Repr

/-- Modelled from the spec: `FoundParameter` of the `structs` module is not
under `src/`; "at minimum a name … sufficient for equality/containment
checks by name". -/
structure FoundParameter where
  name : String
deriving DecidableEq, Repr

/-- The result of `Response::compare(baseline, known_diffs)`:
`(is_code_different, new_diffs)` (runner.rs line 212). -/
structure CompareResult where
  is_code_different : Bool
  new_diffs : List String
deriving DecidableEq, Repr

/-- The `Config` fields the `Runner` reads (runner.rs lines 129, 139, 153,
154, 185, 189); `custom_parameters` is a `HashMap<String, Vec<String>>`,
embedded as an association list in a fixed (but arbitrary) iteration
order. -/
structure RunConfig where
  reflected_only : Bool
  verify : Bool
  replay_proxy : String
  disable_custom_parameters : Bool
  custom_parameters : List (String × List String)
  learn_requests_count : Nat
deriving DecidableEq, Repr

/-- The mutable fields of `Runner` (runner.rs lines 8-21) that the claims
observe.  `config`, `request_defaults` and `replay_client` are passed
separately to the embedded operations. -/
structure RunnerState where
  params : List String
  default_max : Int
  max : Nat
  stable : Stable
  initial_response : Response
  diffs : List String
deriving DecidableEq, Repr

/-- Runner.rs lines 80-88: rebuild the probe response with `request: None`,
all other fields verbatim. -/
def stripRequest (r : Response) : Response :=
  { time := r.time
    code := r.code
    headers := r.headers
    text := r.text
    reflected_parameters := r.reflected_parameters
    additional_parameter := r.additional_parameter
    request := none }

/-- Runner.rs lines 52-58: if the injection place is not `Headers`, push
every possible parameter from the initial response that the candidate list
does not yet contain. -/
def candidateParams (ip : InjectionPlace) (possible params0 : List String) :
    List String :=
  if ip ≠ InjectionPlace.Headers then
    possible.foldl (fun ps p => if ps.contains p then ps else ps ++ [p]) params0
  else
    params0

/-- `Runner::new` (runner.rs lines 26-110).  The initial probe's response
and its `get_possible_parameters()` output are oracle inputs.  Error check
(lines 61-67): the candidate list is smaller than `max = |default_max|`
and empty.  The returned struct (lines 96-109) sets
`max: default_max.abs() as usize` from the possibly-shrunk `default_max`. -/
def runnerNew (ip : InjectionPlace) (resp : Response)
    (possible params0 : List String) (default_max0 : Int) :
    Except String RunnerState :=
  let params := candidateParams ip possible params0
  let max0 := default_max0.natAbs
  let default_max := if params.length < max0 then (params.length : Int) else default_max0
  if params.length < max0 ∧ params.length = 0 then
    .error "No parameters were provided."
  else
    .ok { params := params
          default_max := default_max
          max := default_max.natAbs
          stable := { body := false, reflections := false }
          initial_response := stripRequest resp
          diffs := [] }

/-- `Runner::try_to_increase_max` (runner.rs lines 207-241) as a pure
function of the current `max`, `stable.body`, and the two probe
`compare` outcomes.  Returns the new `max` and whether the second probe
(`max + 128` random parameters) was sent at all. -/
def tryToIncreaseMax (max : Nat) (stable_body : Bool)
    (p1 p2 : CompareResult) : Nat × Bool :=
  let is_the_body_the_same := true
  let is_the_body_the_same :=
    if !p1.new_diffs.isEmpty then false else is_the_body_the_same
  if !p1.is_code_different && (!stable_body || is_the_body_the_same) then
    let is_the_body_the_same :=
      if !p2.new_diffs.isEmpty then false else is_the_body_the_same
    if !p2.is_code_different && (!stable_body || is_the_body_the_same) then
      (max + 128, true)
    else
      (max + 64, true)
  else
    (max, false)

/-- The per-probe escalation condition of the spec: response code unchanged
and (body unstable anyway, or no new diffs beyond the known diffs). -/
def probeSafe (stable_body : Bool) (p : CompareResult) : Bool :=
  !p.is_code_different && (!stable_body || p.new_diffs.isEmpty)

/-- `tryToIncreaseMax` applied to a runner state (used by
`stability_checker`, runner.rs line 195): only `max` changes. -/
def tryToIncreaseMaxState (st : RunnerState) (p1 p2 : CompareResult) :
    RunnerState :=
  { st with max := (tryToIncreaseMax st.max st.stable.body p1 p2).1 }

/-- C1: for `try_to_increase_max`, the resulting max is one of
{original, original+64, original+128}; max+128 is committed exactly when
both ladder probes satisfy the safety condition; max+64 exactly when only
the first does; max is unchanged exactly when the first probe fails the
condition, and then the second probe is never sent. -/
theorem try_to_increase_max_ladder (max : Nat) (sb : Bool)
    (p1 p2 : CompareResult) :
    ((tryToIncreaseMax max sb p1 p2).1 = max ∨
     (tryToIncreaseMax max sb p1 p2).1 = max + 64 ∨
     (tryToIncreaseMax max sb p1 p2).1 = max + 128) ∧
    ((tryToIncreaseMax max sb p1 p2).1 = max + 128 ↔
      probeSafe sb p1 = true ∧ probeSafe sb p2 = true) ∧
    ((tryToIncreaseMax max sb p1 p2).1 = max + 64 ↔
      probeSafe sb p1 = true ∧ probeSafe sb p2 = false) ∧
    ((tryToIncreaseMax max sb p1 p2).1 = max ↔ probeSafe sb p1 = false) ∧
    ((tryToIncreaseMax max sb p1 p2).2 = probeSafe sb p1) := by
  obtain ⟨c1, d1⟩ := p1
  obtain ⟨c2, d2⟩ := p2
  cases c1 <;> cases c2 <;> cases sb <;> cases d1 <;> cases d2 <;>
    simp [tryToIncreaseMax, probeSafe]

/-- `Runner::stability_checker` (runner.rs lines 179-203).  The
`empty_reqs` collaborator's output `(diffs, stable)` and the two sizer
probe outcomes are oracle inputs.  Returns the updated state and whether
`try_to_increase_max` was invoked. -/
def stabilityChecker (st : RunnerState) (reflected_only : Bool)
    (learned : List String × Stable) (p1 p2 : CompareResult) :
    Except String (RunnerState × Bool) :=
  let st := { st with diffs := learned.1, stable := learned.2 }
  if reflected_only && !st.stable.reflections then
    .error "Reflections are not stable"
  else if st.default_max = -128 then
    let st1 := tryToIncreaseMaxState st p1 p2
    let st2 :=
      if st1.max ≠ st1.default_max.natAbs then
        { st1 with default_max := (st1.max : Int) }
      else st1
    .ok (st2, true)
  else
    .ok (st, false)

/-- C2: whenever the merged candidate list is strictly shorter than
`|default_max|`, construction fails with "No parameters were provided."
if the candidate count is zero, and otherwise yields a runner whose `max`
and `default_max` both equal the candidate count. -/
theorem runner_new_shrinks_max (ip : InjectionPlace) (resp : Response)
    (possible params0 : List String) (dm0 : Int)
    (h : (candidateParams ip possible params0).length < dm0.natAbs) :
    ((candidateParams ip possible params0).length = 0 →
      runnerNew ip resp possible params0 dm0 =
        .error "No parameters were provided.") ∧
    (∀ r, runnerNew ip resp possible params0 dm0 = .ok r →
      r.max = (candidateParams ip possible params0).length ∧
      r.default_max = ((candidateParams ip possible params0).length : Int)) ∧
    ((candidateParams ip possible params0).length ≠ 0 →
      ∃ r, runnerNew ip resp possible params0 dm0 = .ok r) := by
  refine ⟨fun h0 => ?_, fun r hr => ?_, fun h0 => ?_⟩
  · have hd : dm0 ≠ 0 := by
      intro hdm
      rw [h0, hdm] at h
      simp at h
    simp [runnerNew, h, h0, hd]
  · simp only [runnerNew] at hr
    by_cases h0 : (candidateParams ip possible params0).length = 0
    · have hd : dm0 ≠ 0 := by
        intro hdm
        rw [h0, hdm] at h
        simp at h
      simp [h, h0, hd] at hr
    · simp [h, h0] at hr
      subst hr
      simp
  · simp [runnerNew, h, h0]

/-- A concrete response used by the closed witness theorems. -/
def respW : Response :=
  { time := 5
    code := 200
    headers := [("server", "x")]
    text := "hello"
    reflected_parameters := ["m"]
    additional_parameter := none
    request := some () }

/-- Witness for C2 at a concrete input: one candidate, `default_max = -128`. -/
theorem runner_new_shrinks_max_witness :
    (candidateParams InjectionPlace.Query [] ["a"]).length <
      ((-128 : Int)).natAbs ∧
    ∃ r, runnerNew InjectionPlace.Query respW [] ["a"] (-128) = .ok r ∧
      r.max = 1 ∧ r.default_max = 1 := by
  have h : (candidateParams InjectionPlace.Query [] ["a"]).length <
      ((-128 : Int)).natAbs := by decide
  refine ⟨h, ?_⟩
  obtain ⟨r, hr⟩ :=
    (runner_new_shrinks_max InjectionPlace.Query respW [] ["a"] (-128) h).2.2
      (by decide)
  obtain ⟨h1, h2⟩ :=
    (runner_new_shrinks_max InjectionPlace.Query respW [] ["a"] (-128) h).2.1
      r hr
  exact ⟨r, hr, by simpa using h1, by simpa using h2⟩

/-- One round of the non-random sweep loop body (runner.rs lines 160-164):
iterate over the custom-parameter map; for each name with values left, pop
the last value (Rust `Vec::pop` removes from the back) and push
"name=value" onto the accumulated `params` vector. -/
def sweepRound : List (String × List String) → List String →
    List (String × List String) × List String
  | [], params => ([], params)
  | (k, v) :: rest, params =>
    match v.getLast? with
    | none =>
      let r := sweepRound rest params
      ((k, v) :: r.1, r.2)
    | some last =>
      let r := sweepRound rest (params ++ [k ++ "=" ++ last])
      ((k, v.dropLast) :: r.1, r.2)

/-- The sweep loop of `check_non_random_parameters` (runner.rs lines
159-171), with explicit fuel since the source loop need not terminate.
Note the source never clears `params` between rounds.  Returns the list of
batches passed to `check_parameters` (one per executed round) and whether
the loop reached its `break` within the given fuel (`false` = still
running). -/
def sweepLoop : Nat → List (String × List String) → List String →
    List (List String) × Bool
  | 0, _, _ => ([], false)
  | n + 1, cp, params =>
    let r := sweepRound cp params
    if r.2.isEmpty then
      ([], true)
    else
      let rest := sweepLoop n r.1 r.2
      (r.2 :: rest.1, rest.2)

/-- `Runner::check_non_random_parameters` (runner.rs lines 149-175) at the
level of probe batches: `some batches` when the loop breaks within the
fuel, `none` when it is still running.  When `disable_custom_parameters`
is set the sweep does nothing. -/
def sweepBatchesOpt (cfg : RunConfig) (fuel : Nat) :
    Option (List (List String)) :=
  if cfg.disable_custom_parameters then some []
  else
    let r := sweepLoop fuel cfg.custom_parameters []
    if r.2 then some r.1 else none

/-- `check_non_random_parameters` observed together with the configuration
after the call: the source clones `self.config.custom_parameters`
(runner.rs line 154) and drains only the clone; `self.config` is held by
shared reference and is never written, so the configuration component is
returned unchanged. -/
def checkNonRandomParameters (cfg : RunConfig) (fuel : Nat) :
    Option (List (List String)) × RunConfig :=
  (sweepBatchesOpt cfg fuel, cfg)

/-- Text before the first `=` of a name: Rust
`x.name.split('=').next().unwrap()` (runner.rs line 125). -/
def keyPart (s : String) : String :=
  String.mk (s.data.takeWhile (fun c => c != '='))

/-- Rust `x.name.contains('=')` (runner.rs line 125). -/
def nameContainsEq (s : String) : Bool :=
  s.data.contains '='

/-- Modelled from the spec: `Parameters::contains_key` of the `structs`
module is not under `src/`; per the spec it checks whether the key "is
already present as a found parameter name". -/
def containsKey (ps : List FoundParameter) (k : String) : Bool :=
  ps.any (fun p => p.name == k)

/-- The dedup filter of `Runner::run` (runner.rs lines 123-126): keep a
found parameter unless its name contains '=' and the text before the
first '=' is already a found parameter name. -/
def dedupFilter (ps : List FoundParameter) : List FoundParameter :=
  ps.filter (fun x => !(nameContainsEq x.name && containsKey ps (keyPart x.name)))

/-- The found-parameter list of `Runner::run` just before verification:
the discovery pass on `params`, then the sweep batches, then the dedup
filter (runner.rs lines 117-126).  `checkParams` is the
`check_parameters` collaborator oracle, returning `(diffs, found)`. -/
def discoveredParams
    (checkParams : List String → List String × List FoundParameter)
    (params : List String) (batches : List (List String)) :
    List FoundParameter :=
  dedupFilter ((checkParams params).2 ++ (batches.map (fun b => (checkParams b).2)).flatten)

/-- `Runner::run` (runner.rs lines 113-146).  Oracle inputs: the
`empty_reqs` result, the two sizer probe outcomes, the `check_parameters`
collaborator, the verifier outcome (`none` = verifier error) and the
replay outcome (`false` = replay error).  Result: `none` when the sweep
loop is still running after `fuel` rounds; otherwise the run result
(exposing the final found-parameter list), the list of discovery batches
handed to `check_parameters`, and the warnings logged. -/
def runnerRun (cfg : RunConfig) (st : RunnerState) (params : List String)
    (learned : List String × Stable) (p1 p2 : CompareResult)
    (checkParams : List String → List String × List FoundParameter)
    (verifyOutcome : Option (List FoundParameter)) (replayOk : Bool)
    (fuel : Nat) :
    Option (Except String (List FoundParameter) × List (List String) × List String) :=
  match stabilityChecker st cfg.reflected_only learned p1 p2 with
  | .error e => some (.error e, [], [])
  | .ok _ =>
    match sweepBatchesOpt cfg fuel with
    | none => none
    | some batches =>
      let found := discoveredParams checkParams params batches
      let vr :=
        if cfg.verify then
          match verifyOutcome with
          | some filtered => (filtered, ([] : List String))
          | none => (found, ["was unable to verify found parameters"])
        else (found, [])
      let w2 :=
        if cfg.replay_proxy.isEmpty then ([] : List String)
        else if replayOk then []
        else ["was unable to resend found parameters via different proxy"]
      some (.ok vr.1, params :: batches, vr.2 ++ w2)

/-- C3: the Adaptive Batch Sizer is invoked by the stability-check stage
iff `default_max` is exactly -128 at that point; when invoked on a state
whose `max` equals `|default_max|` (as every constructed runner's does)
and it changes `max`, the new `max` is copied into `default_max`.
Consequently a runner constructed with `default_max = -128` and a
two-element candidate list has `max = 2`, `default_max = 2`, and the sizer
is never invoked. -/
theorem sizer_gate_and_scenario :
    (∀ (st : RunnerState) (ro : Bool) (learned : List String × Stable)
        (p1 p2 : CompareResult) (s : RunnerState × Bool),
      stabilityChecker st ro learned p1 p2 = .ok s →
        ((s.2 = true ↔ st.default_max = -128) ∧
         (s.2 = true → st.max = st.default_max.natAbs → s.1.max ≠ st.max →
           s.1.default_max = (s.1.max : Int)))) ∧
    (∀ (ip : InjectionPlace) (resp : Response) (possible params0 : List String),
      (candidateParams ip possible params0).length = 2 →
      ∀ r, runnerNew ip resp possible params0 (-128) = .ok r →
        r.max = 2 ∧ r.default_max = 2 ∧
        (∀ (ro : Bool) (learned : List String × Stable)
            (p1 p2 : CompareResult) (s : RunnerState × Bool),
          stabilityChecker r ro learned p1 p2 = .ok s → s.2 = false)) := by
  constructor
  · intro st ro learned p1 p2 s hs
    simp only [stabilityChecker] at hs
    by_cases hg : (ro && !learned.2.reflections) = true
    · simp [hg] at hs
    · simp only [hg] at hs
      by_cases hdm : st.default_max = -128
      · simp [hdm] at hs
        by_cases hch :
            (tryToIncreaseMaxState
              { st with diffs := learned.1, stable := learned.2 } p1 p2).max ≠
            st.default_max.natAbs
        · simp [tryToIncreaseMaxState, hdm] at hch
          simp [hch, tryToIncreaseMaxState] at hs
          subst hs
          simp [hdm, tryToIncreaseMaxState]
        · simp [tryToIncreaseMaxState, hdm] at hch
          simp [hch, tryToIncreaseMaxState] at hs
          subst hs
          refine ⟨by simp [hdm], ?_⟩
          intro _ hmax hne
          exfalso
          apply hne
          simp only [hmax, hdm]
          decide
      · simp [hdm] at hs
        subst hs
        simp [hdm]
  · intro ip resp possible params0 hlen r hr
    have h2 : (candidateParams ip possible params0).length <
        ((-128 : Int)).natAbs := by
      rw [hlen]; decide
    obtain ⟨hmax, hdm⟩ :=
      (runner_new_shrinks_max ip resp possible params0 (-128) h2).2.1 r hr
    refine ⟨by rw [hmax, hlen], by rw [hdm, hlen]; rfl, ?_⟩
    intro ro learned p1 p2 s hs
    simp only [stabilityChecker] at hs
    by_cases hg : (ro && !learned.2.reflections) = true
    · simp [hg] at hs
    · have hne : ¬ r.default_max = -128 := by
        rw [hdm, hlen]
        decide
      simp [hg, hne] at hs
      subst hs
      rfl

/-- A concrete learned-stability record and probe outcome for witnesses. -/
def stableW : Stable := { body := true, reflections := true }

/-- A concrete compare outcome for witnesses. -/
def probeW : CompareResult := { is_code_different := false, new_diffs := [] }

/-- Witness for C3: constructing with default_max = -128 and candidates
["a","b"] yields max = 2, default_max = 2, and a stability check that does
not invoke the sizer. -/
theorem sizer_gate_and_scenario_witness :
    ∃ r, runnerNew InjectionPlace.Query respW [] ["a", "b"] (-128) = .ok r ∧
      r.max = 2 ∧ r.default_max = 2 ∧
      ∃ s, stabilityChecker r false ([], stableW) probeW probeW = .ok s ∧
        s.2 = false := by
  have hlen : (candidateParams InjectionPlace.Query [] ["a", "b"]).length = 2 := by
    decide
  have hr : runnerNew InjectionPlace.Query respW [] ["a", "b"] (-128) =
      .ok { params := ["a", "b"], default_max := 2, max := 2
            stable := { body := false, reflections := false }
            initial_response := stripRequest respW, diffs := [] } := by
    rfl
  obtain ⟨h1, h2, h3⟩ :=
    sizer_gate_and_scenario.2 InjectionPlace.Query respW [] ["a", "b"] hlen _ hr
  refine ⟨_, hr, h1, h2, ?_⟩
  refine ⟨({ params := ["a", "b"], default_max := 2, max := 2
             stable := stableW
             initial_response := stripRequest respW, diffs := [] }, false), rfl, ?_⟩
  exact h3 false ([], stableW) probeW probeW _ rfl

/-- C4: when `reflected_only` is set and the learned `stable.reflections`
is false, the run fails with "Reflections are not stable" and the list of
discovery batches handed to `check_parameters` (main pass or sweep) is
empty. -/
theorem reflected_only_gate (cfg : RunConfig) (st : RunnerState)
    (params : List String) (learned : List String × Stable)
    (p1 p2 : CompareResult)
    (checkParams : List String → List String × List FoundParameter)
    (verifyOutcome : Option (List FoundParameter)) (replayOk : Bool)
    (fuel : Nat)
    (hro : cfg.reflected_only = true) (hst : learned.2.reflections = false) :
    runnerRun cfg st params learned p1 p2 checkParams verifyOutcome replayOk fuel =
      some (.error "Reflections are not stable", [], []) := by
  simp [runnerRun, stabilityChecker, hro, hst]

/-- A concrete configuration for the C4 witness. -/
def cfgW4 : RunConfig :=
  { reflected_only := true
    verify := false
    replay_proxy := ""
    disable_custom_parameters := false
    custom_parameters := [("debug", ["1"])]
    learn_requests_count := 9 }

/-- A concrete runner state for witnesses. -/
def stW : RunnerState :=
  { params := ["a", "b"]
    default_max := 2
    max := 2
    stable := { body := false, reflections := false }
    initial_response := stripRequest respW
    diffs := [] }

/-- Witness for C4 at a concrete input: reflections learned unstable under
`reflected_only` aborts the run with no discovery batch. -/
theorem reflected_only_gate_witness :
    runnerRun cfgW4 stW ["a", "b"]
      ([], { body := true, reflections := false }) probeW probeW
      (fun _ => ([], [])) none true 3 =
      some (.error "Reflections are not stable", [], []) :=
  reflected_only_gate cfgW4 stW ["a", "b"]
    ([], { body := true, reflections := false }) probeW probeW
    (fun _ => ([], [])) none true 3 rfl rfl

/-- One sweep round never shrinks the accumulated batch vector: its result
extends the incoming `params`, so a non-empty batch stays non-empty. -/
theorem sweepRound_ne_nil (cp : List (String × List String))
    (params : List String) (h : params ≠ []) :
    (sweepRound cp params).2 ≠ [] := by
  induction cp generalizing params with
  | nil => simpa [sweepRound] using h
  | cons kv rest ih =>
    obtain ⟨k, v⟩ := kv
    simp only [sweepRound]
    cases hv : v.getLast? with
    | none => exact ih params h
    | some last => exact ih (params ++ [k ++ "=" ++ last]) (by simp)

/-- Once the accumulated batch vector is non-empty, the sweep loop can
never reach its `break`: the termination flag stays `false` for every
amount of fuel. -/
theorem sweepLoop_never_breaks (n : Nat) (cp : List (String × List String))
    (params : List String) (h : params ≠ []) :
    (sweepLoop n cp params).2 = false := by
  induction n generalizing cp params with
  | zero => rfl
  | succ m ih =>
    have hne := sweepRound_ne_nil cp params h
    simp only [sweepLoop]
    rw [if_neg (by simpa [List.isEmpty_iff] using hne)]
    exact ih _ _ hne

/-- C5 (code bug): on custom parameters {"debug": ["1"]} the sweep loop of
`check_non_random_parameters` never reaches its `break` — the `params`
vector is never cleared between rounds, so after the first round it is
never empty again — and the same "debug=1" pair is handed to
`check_parameters` again on every round, contradicting the source's own
"until there's no values left" comment. -/
theorem sweep_never_terminates :
    (∀ fuel, (sweepLoop fuel [("debug", ["1"])] []).2 = false) ∧
    (sweepLoop 3 [("debug", ["1"])] []).1 =
      [["debug=1"], ["debug=1"], ["debug=1"]] := by
  constructor
  · intro fuel
    cases fuel with
    | zero => rfl
    | succ m =>
      simp only [sweepLoop]
      rw [if_neg (by decide)]
      exact sweepLoop_never_breaks m _ ["debug=1"] (by decide)
  · decide

/-- The concrete custom-parameter map of the C6 scenario, in the model's
fixed iteration order. -/
def cpW6 : List (String × List String) :=
  [("debug", ["1", "true"]), ("admin", ["yes"])]

/-- C6 counterexample: the first sweep batch on
{"debug": ["1","true"], "admin": ["yes"]} is ["debug=true", "admin=yes"]
— `Vec::pop` takes values from the back of the list — not the claimed
["debug=1", "admin=yes"]; "debug=1" is in no first round under any key
iteration order. -/
theorem sweep_first_round_counterexample :
    (sweepLoop 2 cpW6 []).1.head? = some ["debug=true", "admin=yes"] ∧
    (sweepLoop 2 cpW6 []).1.head? ≠ some ["debug=1", "admin=yes"] := by
  constructor
  · decide
  · decide

/-- C6 amended: each round takes one value per remaining name from the
BACK of its list; the round-1 batch is ["debug=true", "admin=yes"]; since
the batch vector is never cleared, round 2 re-probes round 1's pairs with
"debug=1" appended, and the loop never stops for any amount of fuel. -/
theorem sweep_scenario_actual :
    (sweepLoop 2 cpW6 []).1 =
      [["debug=true", "admin=yes"],
       ["debug=true", "admin=yes", "debug=1"]] ∧
    (∀ fuel, (sweepLoop fuel cpW6 []).2 = false) := by
  constructor
  · decide
  · intro fuel
    cases fuel with
    | zero => rfl
    | succ m =>
      simp only [sweepLoop]
      rw [if_neg (by decide)]
      exact sweepLoop_never_breaks m _ _ (by decide)

/-- C7: the dedup filter keeps an entry of the found list iff it is NOT
the case that its name contains '=' and the text before the first '=' is
already a found parameter name; in particular bare names always survive,
and a key=value entry whose key is not itself found survives. -/
theorem dedup_membership (ps : List FoundParameter) (x : FoundParameter)
    (hx : x ∈ ps) :
    (x ∈ dedupFilter ps ↔
      ¬(nameContainsEq x.name = true ∧ containsKey ps (keyPart x.name) = true)) ∧
    (nameContainsEq x.name = false → x ∈ dedupFilter ps) ∧
    (containsKey ps (keyPart x.name) = false → x ∈ dedupFilter ps) := by
  have hm : x ∈ dedupFilter ps ↔
      ¬(nameContainsEq x.name = true ∧ containsKey ps (keyPart x.name) = true) := by
    simp [dedupFilter, List.mem_filter, hx, -Bool.not_eq_true]
    cases h1 : nameContainsEq x.name <;>
      cases h2 : containsKey ps (keyPart x.name) <;> simp
  refine ⟨hm, fun h1 => hm.mpr ?_, fun h2 => hm.mpr ?_⟩
  · rintro ⟨hc1, _⟩
    rw [h1] at hc1
    exact Bool.false_ne_true hc1
  · rintro ⟨_, hc2⟩
    rw [h2] at hc2
    exact Bool.false_ne_true hc2

/-- Witness for C7 at a concrete input: with found parameters
["admin", "admin=true", "debug=1"], the bare "admin" survives,
"admin=true" is dropped (its key "admin" is already found) and "debug=1"
survives (no bare "debug" was found). -/
theorem dedup_membership_witness :
    (⟨"admin"⟩ : FoundParameter) ∈
      dedupFilter [⟨"admin"⟩, ⟨"admin=true"⟩, ⟨"debug=1"⟩] ∧
    (⟨"admin=true"⟩ : FoundParameter) ∉
      dedupFilter [⟨"admin"⟩, ⟨"admin=true"⟩, ⟨"debug=1"⟩] ∧
    (⟨"debug=1"⟩ : FoundParameter) ∈
      dedupFilter [⟨"admin"⟩, ⟨"admin=true"⟩, ⟨"debug=1"⟩] := by
  refine ⟨?_, ?_, ?_⟩
  · exact
      (dedup_membership [⟨"admin"⟩, ⟨"admin=true"⟩, ⟨"debug=1"⟩] ⟨"admin"⟩
        (by simp)).2.1 (by decide)
  · intro hmem
    have h :=
      (dedup_membership [⟨"admin"⟩, ⟨"admin=true"⟩, ⟨"debug=1"⟩] ⟨"admin=true"⟩
        (by simp)).1.mp hmem
    exact h (by decide)
  · exact
      (dedup_membership [⟨"admin"⟩, ⟨"admin=true"⟩, ⟨"debug=1"⟩] ⟨"debug=1"⟩
        (by simp)).2.2 (by decide)

/-- C8: once the stability stage succeeds and the sweep finishes, a
verifier error (outcome `none`) leaves the pre-verification
found-parameter list unchanged and logs a warning when `verify` is set,
a replay error logs a warning when `replay_proxy` is non-empty, and in
both cases the run still returns Ok. -/
theorem degraded_errors_nonfatal (cfg : RunConfig) (st : RunnerState)
    (params : List String) (learned : List String × Stable)
    (p1 p2 : CompareResult)
    (checkParams : List String → List String × List FoundParameter)
    (fuel : Nat) (s : RunnerState × Bool) (batches : List (List String))
    (h1 : stabilityChecker st cfg.reflected_only learned p1 p2 = .ok s)
    (h2 : sweepBatchesOpt cfg fuel = some batches) :
    runnerRun cfg st params learned p1 p2 checkParams none false fuel =
      some (.ok (discoveredParams checkParams params batches),
            params :: batches,
            (if cfg.verify then ["was unable to verify found parameters"]
             else []) ++
            (if cfg.replay_proxy.isEmpty then []
             else ["was unable to resend found parameters via different proxy"])) := by
  simp only [runnerRun, h1, h2]
  cases hv : cfg.verify <;> cases hr : cfg.replay_proxy.isEmpty <;> simp [hv, hr]

/-- A concrete configuration for the C8 witness: verification requested
and a replay proxy configured, custom-parameter sweep disabled. -/
def cfgW8 : RunConfig :=
  { reflected_only := false
    verify := true
    replay_proxy := "http://localhost:8080"
    disable_custom_parameters := true
    custom_parameters := []
    learn_requests_count := 9 }

/-- Witness for C8 at a concrete input: verifier error and replay error
both only log warnings; the run returns Ok with the pre-verification
(empty) list. -/
theorem degraded_errors_nonfatal_witness :
    runnerRun cfgW8 stW ["a"] ([], stableW) probeW probeW
      (fun _ => ([], [])) none false 0 =
      some (.ok [], [["a"]],
            ["was unable to verify found parameters",
             "was unable to resend found parameters via different proxy"]) := by
  have h :=
    degraded_errors_nonfatal cfgW8 stW ["a"] ([], stableW) probeW probeW
      (fun _ => ([], [])) 0
      ({ stW with diffs := [], stable := stableW }, false) []
      rfl rfl
  simpa [discoveredParams, dedupFilter, cfgW8] using h

/-- C9: a successfully constructed runner's baseline carries no request
linkage and its remaining fields are verbatim those of the calibration
probe's response; neither the batch sizer nor the stability checker ever
changes the stored baseline. -/
theorem baseline_stripped_and_preserved (ip : InjectionPlace)
    (resp : Response) (possible params0 : List String) (dm0 : Int)
    (r : RunnerState)
    (h : runnerNew ip resp possible params0 dm0 = .ok r) :
    r.initial_response.request = none ∧
    r.initial_response.time = resp.time ∧
    r.initial_response.code = resp.code ∧
    r.initial_response.headers = resp.headers ∧
    r.initial_response.text = resp.text ∧
    r.initial_response.reflected_parameters = resp.reflected_parameters ∧
    r.initial_response.additional_parameter = resp.additional_parameter ∧
    (∀ (st : RunnerState) (pa pb : CompareResult),
      (tryToIncreaseMaxState st pa pb).initial_response = st.initial_response) ∧
    (∀ (ro : Bool) (learned : List String × Stable) (pa pb : CompareResult)
        (s : RunnerState × Bool),
      stabilityChecker r ro learned pa pb = .ok s →
        s.1.initial_response = r.initial_response) := by
  have hir : r.initial_response = stripRequest resp := by
    simp only [runnerNew] at h
    split at h
    · exact Except.noConfusion h
    · injection h with h
      subst h
      rfl
  refine ⟨?_, ?_, ?_, ?_, ?_, ?_, ?_, ?_, ?_⟩
  · rw [hir]; rfl
  · rw [hir]; rfl
  · rw [hir]; rfl
  · rw [hir]; rfl
  · rw [hir]; rfl
  · rw [hir]; rfl
  · rw [hir]; rfl
  · intro st pa pb
    rfl
  · intro ro learned pa pb s hs
    simp only [stabilityChecker, tryToIncreaseMaxState] at hs
    by_cases hg : (ro && !learned.2.reflections) = true
    · simp [hg] at hs
    · by_cases hdm : r.default_max = -128
      · simp [hg, hdm] at hs
        subst hs
        split <;> rfl
      · simp [hg, hdm] at hs
        subst hs
        rfl

/-- Witness for C9 at a concrete input. -/
theorem baseline_stripped_and_preserved_witness :
    ∃ r, runnerNew InjectionPlace.Query respW [] ["a"] (-128) = .ok r ∧
      r.initial_response.request = none ∧
      r.initial_response.text = respW.text := by
  have hr : runnerNew InjectionPlace.Query respW [] ["a"] (-128) =
      .ok { params := ["a"], default_max := 1, max := 1
            stable := { body := false, reflections := false }
            initial_response := stripRequest respW, diffs := [] } := rfl
  have h :=
    baseline_stripped_and_preserved InjectionPlace.Query respW [] ["a"] (-128)
      _ hr
  exact ⟨_, hr, h.1, h.2.2.2.2.1⟩

/-- C10 counterexample: with custom parameters {"debug": ["1"]}, the value
"1" is popped and probed as "debug=1" in the first sweep round, yet the
configuration's custom-parameter mapping after `check_non_random_parameters`
still contains it — the sweep drains a clone (runner.rs line 154), not the
Config. -/
theorem config_not_drained_counterexample :
    (sweepLoop 1 [("debug", ["1"])] []).1 = [["debug=1"]] ∧
    (checkNonRandomParameters
      { reflected_only := false, verify := false, replay_proxy := ""
        disable_custom_parameters := false
        custom_parameters := [("debug", ["1"])]
        learn_requests_count := 9 } 1).2.custom_parameters =
      [("debug", ["1"])] := by
  constructor
  · decide
  · rfl

/-- C10 amended: the sweep pops values destructively from a local clone of
`config.custom_parameters`; the configuration itself is returned unchanged
by `check_non_random_parameters` for every input and fuel. -/
theorem config_unchanged_by_sweep (cfg : RunConfig) (fuel : Nat) :
    (checkNonRandomParameters cfg fuel).2 = cfg ∧
    (checkNonRandomParameters cfg fuel).2.custom_parameters =
      cfg.custom_parameters := by
  exact ⟨rfl, rfl⟩
